import Mathlib

/-!
Shallow embedding of the FlowMint program (src/program/programs/flowmint).

Conventions:
* `Pubkey` is abstracted as `Nat` (only equality of keys matters to the logic).
* Rust `u64`/`u16` values are `Nat`s; where the source performs a checked
  operation (`checked_sub`, `checked_add`, `saturating_add`) the model mirrors
  it explicitly.  Plain `u64` arithmetic that can overflow aborts the
  transaction (the build enables overflow checks; the spec declares overflow a
  hard failure), modelled as an error/`Option.none`.  Rust `as` casts truncate
  and are modelled with explicit `% 2^w` / two's-complement wrapping.
* Rust `i64`/`i128` values are `Int`s; `/` on signed integers in Rust truncates
  toward zero, modelled with `Int.div`.
* Fallible Rust functions returning `Result` become `Except`.
* Account plumbing (PDAs, bumps, rent, discriminators) is outside the model;
  token balances are passed explicitly and SPL-token transfers are modelled by
  `spl_transfer`.
-/

/-- Two to the sixty-fourth, the `u64` overflow bound. -/
def U64_MOD : Nat := 2 ^ 64

/-- Largest `u64` value. -/
def U64_MAX : Nat := 2 ^ 64 - 1

/-- Rust `u64::saturating_add`. -/
def sat_add64 (a b : Nat) : Nat := min (a + b) U64_MAX

/-- Rust `u64::checked_sub`. -/
def checked_sub (a b : Nat) : Option Nat := if b ≤ a then some (a - b) else none

/-- Rust cast `i128 as i32`: keep the low 32 bits, two's complement. -/
def wrap_i32 (x : Int) : Int := (x + 2 ^ 31) % (2 ^ 32) - 2 ^ 31

/-- Abstract public key (account / mint address). -/
abbrev Pubkey := Nat

/-- Step of a Jupiter route (jupiter.rs, struct RouteStep). -/
structure RouteStep where
  program_id : Pubkey
  input_mint : Pubkey
  output_mint : Pubkey
  amount_in : Nat
  amount_out : Nat
  fee_amount : Nat
  fee_mint : Pubkey
deriving DecidableEq

/-- Complete Jupiter route plan (jupiter.rs, struct JupiterRoute). -/
structure JupiterRoute where
  input_mint : Pubkey
  output_mint : Pubkey
  in_amount : Nat
  out_amount : Nat
  slippage_bps : Nat
  route_steps : List RouteStep
  quote_timestamp : Int
  quote_expiration_seconds : Int
deriving DecidableEq

/-- Errors of jupiter.rs (enum JupiterError). -/
inductive JupiterError where
  | InvalidInputMint
  | InvalidOutputMint
  | AmountMismatch
  | InsufficientOutput
  | SlippageExceeded
  | QuoteExpired
  | CpiInvocationFailed
  | InvalidRouteData
  | DeserializationFailed
deriving DecidableEq

/-- JupiterRoute::validate (jupiter.rs lines 68-103): the `require!` chain. -/
def JupiterRoute.validate (r : JupiterRoute) (expected_input_mint expected_output_mint : Pubkey)
    (expected_amount_in minimum_amount_out : Nat) (max_slippage_bps : Nat) :
    Except JupiterError Unit :=
  if r.input_mint = expected_input_mint then
    if r.output_mint = expected_output_mint then
      if r.in_amount = expected_amount_in then
        if minimum_amount_out ≤ r.out_amount then
          if r.slippage_bps ≤ max_slippage_bps then
            .ok ()
          else .error .SlippageExceeded
        else .error .InsufficientOutput
      else .error .AmountMismatch
    else .error .InvalidOutputMint
  else .error .InvalidInputMint

/-- JupiterRoute::is_expired (jupiter.rs lines 106-108). -/
def JupiterRoute.is_expired (r : JupiterRoute) (current_timestamp : Int) : Bool :=
  current_timestamp > r.quote_timestamp + r.quote_expiration_seconds

/-- calculate_actual_slippage (jupiter.rs lines 240-249): the difference and the
division are exact in `i128`, then the result is cast `as i32`. -/
def calculate_actual_slippage (expected_out actual_out : Nat) : Int :=
  if expected_out = 0 then 0
  else wrap_i32 (Int.tdiv (((actual_out : Int) - (expected_out : Int)) * 10000) (expected_out : Int))

/-- verify_swap_output (jupiter.rs lines 258-279). -/
def verify_swap_output (actual_out minimum_out : Nat) (max_slippage_bps : Nat)
    (expected_out : Nat) : Except JupiterError Unit :=
  if minimum_out ≤ actual_out then
    if calculate_actual_slippage expected_out actual_out < -(max_slippage_bps : Int) then
      .error .SlippageExceeded
    else .ok ()
  else .error .InsufficientOutput

/-- execute_jupiter_swap (jupiter.rs lines 169-222).  The cross-program call is
abstract: `cpi_ok` says whether the aggregator invocation succeeded (its effect
on balances is supplied separately to the calling handlers).  On success the
function returns the route's QUOTED `out_amount` (line 221), never a realized
amount. -/
def execute_jupiter_swap (route : JupiterRoute) (cpi_ok : Bool) : Except JupiterError Nat :=
  if cpi_ok then .ok route.out_amount else .error .CpiInvocationFailed

/-- Errors of errors.rs (enum FlowMintError); constructors the model reaches. -/
inductive FlowMintError where
  | SlippageExceeded
  | PriceImpactTooHigh
  | InsufficientBalance
  | InsufficientOutputAmount
  | PaymentFailed
  | QuoteExpired
  | InvalidConfiguration
  | Unauthorized
  | ProtectedModeViolation
  | InvalidMint
  | AmountTooSmall
  | AmountTooLarge
  | MathOverflow
  | InvalidOwner
  | InvalidInstructionData
  | JupiterSwapFailed
deriving DecidableEq

/-- Combined error type of a whole instruction: the program's own errors, the
errors propagated from jupiter.rs, a failed SPL-token transfer CPI, and an
arithmetic abort of a checked build (overflow is a hard failure). -/
inductive ProgErr where
  | flow (e : FlowMintError)
  | jup (e : JupiterError)
  | tokenFailed
  | overflowAbort
deriving DecidableEq

/-- Protocol configuration account (state.rs, struct ProtocolConfig); PDA bump
and reserved padding are account plumbing and are not modelled. -/
structure ProtocolConfig where
  authority : Pubkey
  default_slippage_bps : Nat
  protected_slippage_bps : Nat
  max_price_impact_bps : Nat
  protected_mode_enabled : Bool
  protocol_fee_bps : Nat
  treasury : Pubkey
  total_swaps : Nat
  total_volume_usd : Nat
deriving DecidableEq

/-- ProtocolConfig::validate_slippage (state.rs lines 64-70). -/
def ProtocolConfig.validate_slippage (c : ProtocolConfig) (slippage_bps : Nat)
    (protected_mode : Bool) : Bool :=
  if protected_mode || c.protected_mode_enabled then
    slippage_bps ≤ c.protected_slippage_bps
  else
    slippage_bps ≤ c.default_slippage_bps

/-- Swap receipt account (state.rs, struct SwapReceipt); tx_signature and bump
are plumbing and not modelled. -/
structure SwapReceipt where
  user : Pubkey
  input_mint : Pubkey
  output_mint : Pubkey
  amount_in : Nat
  amount_out : Nat
  slippage_bps : Nat
  protected_mode : Bool
  timestamp : Int
deriving DecidableEq

/-- Payment record account (state.rs, struct PaymentRecord); bump not modelled,
the fixed 64-byte memo buffer is modelled as the list of stored bytes. -/
structure PaymentRecord where
  payer : Pubkey
  merchant : Pubkey
  input_mint : Pubkey
  amount_in : Nat
  usdc_amount : Nat
  memo : List Nat
  memo_len : Nat
  timestamp : Int
deriving DecidableEq

/-- User stats account (state.rs, struct UserStats); bump not modelled. -/
structure UserStats where
  user : Pubkey
  total_swaps : Nat
  total_volume_usd : Nat
  total_payments : Nat
  total_dca_orders : Nat
  total_stop_loss_orders : Nat
  last_activity : Int
deriving DecidableEq

/-- Maximum allowed slippage in basis points (initialize.rs line 11,
admin.rs line 12). -/
def MAX_SLIPPAGE_BPS : Nat := 5000

/-- Maximum memo length (payment.rs line 29). -/
def MAX_MEMO_LENGTH : Nat := 64

/-- initialize handler (initialize.rs lines 50-91).  The Anchor `init`
constraint (one-time creation) and bump are environment concerns; the function
returns the freshly written config account. -/
def initialize_handler (authority treasury : Pubkey)
    (default_slippage_bps protected_slippage_bps max_price_impact_bps : Nat) :
    Except FlowMintError ProtocolConfig :=
  if default_slippage_bps ≤ MAX_SLIPPAGE_BPS then
    if protected_slippage_bps ≤ default_slippage_bps then
      if max_price_impact_bps ≤ MAX_SLIPPAGE_BPS then
        .ok { authority := authority
              default_slippage_bps := default_slippage_bps
              protected_slippage_bps := protected_slippage_bps
              max_price_impact_bps := max_price_impact_bps
              protected_mode_enabled := false
              protocol_fee_bps := 0
              treasury := treasury
              total_swaps := 0
              total_volume_usd := 0 }
      else .error .InvalidConfiguration
    else .error .InvalidConfiguration
  else .error .InvalidConfiguration

/-- update_config handler (admin.rs lines 44-100) together with the account
constraint `authority.key() == config.authority` (admin.rs line 19).  Each
supplied field is checked and written in sequence, exactly as in the source:
a supplied protected slippage is checked against the (possibly just updated)
default, but a supplied default is never checked against the stored protected
value. -/
def update_config_handler (caller : Pubkey) (config : ProtocolConfig)
    (new_default_slippage_bps new_protected_slippage_bps new_max_price_impact_bps
      new_protocol_fee_bps : Option Nat) (new_treasury : Option Pubkey) :
    Except FlowMintError ProtocolConfig :=
  if caller = config.authority then do
    let c1 ← match new_default_slippage_bps with
      | none => pure config
      | some slippage =>
        if slippage ≤ MAX_SLIPPAGE_BPS then
          pure { config with default_slippage_bps := slippage }
        else throw .InvalidConfiguration
    let c2 ← match new_protected_slippage_bps with
      | none => pure c1
      | some slippage =>
        if slippage ≤ MAX_SLIPPAGE_BPS then
          if slippage ≤ c1.default_slippage_bps then
            pure { c1 with protected_slippage_bps := slippage }
          else throw .InvalidConfiguration
        else throw .InvalidConfiguration
    let c3 ← match new_max_price_impact_bps with
      | none => pure c2
      | some impact =>
        if impact ≤ MAX_SLIPPAGE_BPS then
          pure { c2 with max_price_impact_bps := impact }
        else throw .InvalidConfiguration
    let c4 ← match new_protocol_fee_bps with
      | none => pure c3
      | some fee_bps =>
        if fee_bps ≤ 10000 then
          pure { c3 with protocol_fee_bps := fee_bps }
        else throw .InvalidConfiguration
    let c5 ← match new_treasury with
      | none => pure c4
      | some treasury => pure { c4 with treasury := treasury }
    pure c5
  else .error .Unauthorized

/-- toggle_protected_mode handler (admin.rs lines 180-192) with the authority
account constraint. -/
def toggle_protected_mode_handler (caller : Pubkey) (config : ProtocolConfig)
    (enabled : Bool) : Except FlowMintError ProtocolConfig :=
  if caller = config.authority then
    .ok { config with protected_mode_enabled := enabled }
  else .error .Unauthorized

/-- SPL-token transfer of `amt` between two balances: fails when the source
balance is insufficient or the destination would overflow `u64` (the token
program uses checked arithmetic).  Returns the new (source, destination). -/
def spl_transfer (src dst : Nat) (amt : Nat) : Option (Nat × Nat) :=
  if amt ≤ src ∧ dst + amt < U64_MOD then some (src - amt, dst + amt) else none

/-- calculate_price_impact (swap.rs lines 283-296).  The fee sum and the
multiplication `total_fee * 10000` are plain `u64` arithmetic, so overflow
aborts (`none`); the final cast `as u16` truncates to the low 16 bits. -/
def calculate_price_impact (route : JupiterRoute) : Option Nat :=
  if route.in_amount = 0 ∨ route.out_amount = 0 then some 0
  else
    let total_fee := (route.route_steps.map RouteStep.fee_amount).sum
    if total_fee * 10000 < U64_MOD then
      some (if 0 < route.in_amount then (total_fee * 10000 / route.in_amount) % 2 ^ 16 else 0)
    else none

/-- Effect of the aggregator cross-program call in execute_swap: whether it
succeeded, and the user's output-token balance observed when the handler
reloads the account afterwards (swap.rs lines 210-211). -/
structure SwapEffect where
  cpi_ok : Bool
  user_output_after : Nat

/-- Result state of a successful execute_swap. -/
structure SwapResult where
  receipt : SwapReceipt
  user_stats : UserStats
  config : ProtocolConfig
  user_output : Nat
deriving DecidableEq

/-- execute_swap handler (swap.rs lines 120-280).  Token balances are passed
explicitly; `route?` is the route decoded from the first remaining account
(`none` models both a missing account and a failed deserialization, the latter
folded into the former's error for the empty case and into
`DeserializationFailed` handled the same way upstream — here `none` yields
`InvalidInstructionData` exactly as the emptiness check at line 158). -/
def execute_swap_handler (config : ProtocolConfig) (now : Int)
    (user input_mint output_mint : Pubkey)
    (user_input_amount user_output_amount : Nat)
    (user_stats : UserStats)
    (amount_in minimum_amount_out slippage_bps : Nat) (protected_mode : Bool)
    (route? : Option JupiterRoute) (eff : SwapEffect) :
    Except ProgErr SwapResult :=
  let effective_protected_mode := protected_mode || config.protected_mode_enabled
  if config.validate_slippage slippage_bps effective_protected_mode then
    if amount_in ≤ user_input_amount then
      if 0 < amount_in then
        if 0 < minimum_amount_out then
          match route? with
          | none => .error (.flow .InvalidInstructionData)
          | some route =>
            match route.validate input_mint output_mint amount_in minimum_amount_out
                slippage_bps with
            | .error e => .error (.jup e)
            | .ok () =>
              if route.is_expired now then .error (.flow .QuoteExpired)
              else
                let impact_check : Except ProgErr Unit :=
                  if effective_protected_mode then
                    match calculate_price_impact route with
                    | none => .error .overflowAbort
                    | some price_impact_bps =>
                      if price_impact_bps ≤ config.max_price_impact_bps then .ok ()
                      else .error (.flow .PriceImpactTooHigh)
                  else .ok ()
                match impact_check with
                | .error e => .error e
                | .ok () =>
                  let output_balance_before := user_output_amount
                  match execute_jupiter_swap route eff.cpi_ok with
                  | .error e => .error (.jup e)
                  | .ok _actual_output =>
                    let output_balance_after := eff.user_output_after
                    match checked_sub output_balance_after output_balance_before with
                    | none => .error (.flow .MathOverflow)
                    | some actual_amount_out =>
                      match verify_swap_output actual_amount_out minimum_amount_out
                          slippage_bps route.out_amount with
                      | .error e => .error (.jup e)
                      | .ok () =>
                        let receipt : SwapReceipt :=
                          { user := user
                            input_mint := input_mint
                            output_mint := output_mint
                            amount_in := amount_in
                            amount_out := actual_amount_out
                            slippage_bps := slippage_bps
                            protected_mode := effective_protected_mode
                            timestamp := now }
                        let stats0 :=
                          if user_stats.user = 0 then { user_stats with user := user }
                          else user_stats
                        let stats1 :=
                          { stats0 with
                            total_swaps := sat_add64 stats0.total_swaps 1
                            last_activity := now }
                        let config1 :=
                          { config with total_swaps := sat_add64 config.total_swaps 1 }
                        .ok { receipt := receipt
                              user_stats := stats1
                              config := config1
                              user_output := output_balance_after }
        else .error (.flow .AmountTooSmall)
      else .error (.flow .AmountTooSmall)
    else .error (.flow .InsufficientBalance)
  else .error (.flow .SlippageExceeded)

/-- Effect of the aggregator cross-program call in pay_any_token: whether it
succeeded, the temporary USDC account balance observed on reload
(payment.rs lines 232-233), and the payer input-account balance observed on
reload (payment.rs line 245). -/
structure PayEffect where
  cpi_ok : Bool
  temp_usdc_after : Nat
  payer_input_after : Nat

/-- Result state of a successful pay_any_token. -/
structure PayResult where
  record : PaymentRecord
  payer_stats : UserStats
  payer_input_amount : Nat
  payer_usdc_amount : Nat
  merchant_usdc_amount : Nat
  temp_usdc_amount : Nat
deriving DecidableEq

/-- Settlement block of pay_any_token (payment.rs lines 170-288, Steps 2-6):
the direct-USDC shortcut, or route validation, the aggregator call, the
balance re-read, the exact transfer to the merchant and the refund of the
excess.  Returns (actual_amount_in, payer input, payer USDC, merchant USDC,
temp USDC balances). -/
def pay_settle (config : ProtocolConfig) (now : Int)
    (input_mint usdc_mint : Pubkey)
    (payer_input_amount payer_usdc_amount merchant_usdc_amount temp_usdc_amount : Nat)
    (amount_in exact_usdc_out : Nat)
    (route? : Option JupiterRoute) (eff : PayEffect) :
    Except ProgErr (Nat × Nat × Nat × Nat × Nat) :=
  if input_mint = usdc_mint then
    match spl_transfer payer_input_amount merchant_usdc_amount exact_usdc_out with
    | none => .error .tokenFailed
    | some (payer_input1, merchant1) =>
      .ok (exact_usdc_out, payer_input1, payer_usdc_amount, merchant1,
           temp_usdc_amount)
  else
    match route? with
    | none => .error (.flow .InvalidInstructionData)
    | some route =>
      match route.validate input_mint usdc_mint amount_in exact_usdc_out
          config.default_slippage_bps with
      | .error e => .error (.jup e)
      | .ok () =>
        if route.is_expired now then .error (.flow .QuoteExpired)
        else
          let temp_usdc_balance_before := temp_usdc_amount
          match execute_jupiter_swap route eff.cpi_ok with
          | .error e => .error (.jup e)
          | .ok _ =>
            let temp_usdc_balance_after := eff.temp_usdc_after
            match checked_sub temp_usdc_balance_after temp_usdc_balance_before with
            | none => .error (.flow .MathOverflow)
            | some actual_usdc_received =>
              if exact_usdc_out ≤ actual_usdc_received then
                let payer_input1 := eff.payer_input_after
                let actual_amount_in :=
                  match checked_sub amount_in payer_input1 with
                  | some v => v
                  | none => amount_in
                match spl_transfer temp_usdc_balance_after merchant_usdc_amount
                    exact_usdc_out with
                | none => .error .tokenFailed
                | some (temp1, merchant1) =>
                  let excess_usdc := actual_usdc_received - exact_usdc_out
                  if 0 < excess_usdc then
                    match spl_transfer temp1 payer_usdc_amount excess_usdc with
                    | none => .error .tokenFailed
                    | some (temp2, payer_usdc1) =>
                      .ok (actual_amount_in, payer_input1, payer_usdc1,
                           merchant1, temp2)
                  else
                    .ok (actual_amount_in, payer_input1, payer_usdc_amount,
                         merchant1, temp1)
              else .error (.flow .InsufficientOutputAmount)

/-- pay_any_token handler (payment.rs lines 147-347).  Balances of the payer's
input account, the payer's USDC account, the merchant's USDC account and the
temporary PDA USDC holding account are passed explicitly; the settlement block
is pay_settle above. -/
def pay_any_token_handler (config : ProtocolConfig) (now : Int)
    (payer merchant input_mint usdc_mint : Pubkey)
    (payer_input_amount payer_usdc_amount merchant_usdc_amount temp_usdc_amount : Nat)
    (payer_stats : UserStats)
    (amount_in exact_usdc_out : Nat) (memo : Option (List Nat))
    (route? : Option JupiterRoute) (eff : PayEffect) :
    Except ProgErr PayResult :=
  if 0 < amount_in then
    if 0 < exact_usdc_out then
      if amount_in ≤ payer_input_amount then
        match pay_settle config now input_mint usdc_mint payer_input_amount
            payer_usdc_amount merchant_usdc_amount temp_usdc_amount amount_in
            exact_usdc_out route? eff with
        | .error e => .error e
        | .ok (actual_amount_in, pin, pusdc, musdc, tusdc) =>
          let memo_bytes := match memo with
            | some m => m.take MAX_MEMO_LENGTH
            | none => []
          let memo_len := match memo with
            | some m => min m.length MAX_MEMO_LENGTH
            | none => 0
          let record : PaymentRecord :=
            { payer := payer
              merchant := merchant
              input_mint := input_mint
              amount_in := actual_amount_in
              usdc_amount := exact_usdc_out
              memo := memo_bytes
              memo_len := memo_len
              timestamp := now }
          let stats0 :=
            if payer_stats.user = 0 then { payer_stats with user := payer }
            else payer_stats
          let stats1 :=
            { stats0 with
              total_payments := sat_add64 stats0.total_payments 1
              last_activity := now }
          .ok { record := record
                payer_stats := stats1
                payer_input_amount := pin
                payer_usdc_amount := pusdc
                merchant_usdc_amount := musdc
                temp_usdc_amount := tusdc }
      else .error (.flow .InsufficientBalance)
    else .error (.flow .AmountTooSmall)
  else .error (.flow .AmountTooSmall)

deriving instance DecidableEq for Except

/-- The two's-complement truncation to 32 bits is the identity on values that
fit in an `i32`. -/
theorem wrap_i32_eq_self (x : Int) (h1 : -(2 ^ 31) ≤ x) (h2 : x < 2 ^ 31) :
    wrap_i32 x = x := by
  unfold wrap_i32
  rw [Int.emod_eq_of_lt (by omega) (by omega)]
  omega

/-- C4: JupiterRoute::validate succeeds exactly when input mint, output mint,
declared in_amount match, out_amount covers the requirement and slippage_bps is
within the ceiling; the checks run in that order and the first failing check
fixes the error. -/
theorem validate_characterization (r : JupiterRoute) (ei eo : Pubkey) (ai mo ms : Nat) :
    (r.validate ei eo ai mo ms = .ok () ↔
      (r.input_mint = ei ∧ r.output_mint = eo ∧ r.in_amount = ai ∧
        mo ≤ r.out_amount ∧ r.slippage_bps ≤ ms)) ∧
    (r.input_mint ≠ ei → r.validate ei eo ai mo ms = .error .InvalidInputMint) ∧
    (r.input_mint = ei → r.output_mint ≠ eo →
      r.validate ei eo ai mo ms = .error .InvalidOutputMint) ∧
    (r.input_mint = ei → r.output_mint = eo → r.in_amount ≠ ai →
      r.validate ei eo ai mo ms = .error .AmountMismatch) ∧
    (r.input_mint = ei → r.output_mint = eo → r.in_amount = ai → ¬ mo ≤ r.out_amount →
      r.validate ei eo ai mo ms = .error .InsufficientOutput) ∧
    (r.input_mint = ei → r.output_mint = eo → r.in_amount = ai → mo ≤ r.out_amount →
      ¬ r.slippage_bps ≤ ms → r.validate ei eo ai mo ms = .error .SlippageExceeded) := by
  unfold JupiterRoute.validate
  split_ifs <;> simp_all

/-- C4 witness: a concrete route passing (and failing) the characterization. -/
theorem validate_characterization_witness :
    JupiterRoute.validate ⟨1, 2, 10, 20, 30, [], 0, 0⟩ 1 2 10 20 30 = .ok () ∧
    JupiterRoute.validate ⟨1, 2, 10, 20, 30, [], 0, 0⟩ 1 2 11 0 9999 = .error .AmountMismatch :=
  ⟨(validate_characterization ⟨1, 2, 10, 20, 30, [], 0, 0⟩ 1 2 10 20 30).1.mpr
      ⟨rfl, rfl, rfl, by decide, by decide⟩,
    (validate_characterization ⟨1, 2, 10, 20, 30, [], 0, 0⟩ 1 2 11 0 9999).2.2.2.1
      rfl rfl (by decide)⟩

/-- C8 counterexample: calculate_actual_slippage does NOT compute
(actual − expected) × 10000 / expected with exact integer arithmetic; at
expected_out = 1, actual_out = 268435456 the exact value 2684354550000 is
truncated by the cast to `i32` to −10000. -/
theorem calculate_actual_slippage_not_exact :
    calculate_actual_slippage 1 268435456 = -10000 ∧
    Int.tdiv (((268435456 : Int) - 1) * 10000) 1 = 2684354550000 ∧
    ¬ calculate_actual_slippage 1 268435456 =
        Int.tdiv (((268435456 : Int) - 1) * 10000) 1 := by
  refine ⟨by decide, by decide, by decide⟩

/-- C8 (amended): calculate_actual_slippage computes the `i32`-truncation of
(actual − expected) × 10000 / expected (truncating division, 0 when
expected_out = 0), which agrees with the exact signed basis-point value whenever
that value fits in an `i32`; in particular (1000,1000) gives 0, (1000,1010)
gives 100 and (1000,990) gives −100. -/
theorem calculate_actual_slippage_spec (expected_out actual_out : Nat)
    (he : expected_out ≠ 0)
    (hlo : -(2 ^ 31) ≤ Int.tdiv (((actual_out : Int) - expected_out) * 10000) expected_out)
    (hhi : Int.tdiv (((actual_out : Int) - expected_out) * 10000) expected_out < 2 ^ 31) :
    calculate_actual_slippage expected_out actual_out =
      Int.tdiv (((actual_out : Int) - expected_out) * 10000) expected_out ∧
    calculate_actual_slippage 1000 1000 = 0 ∧
    calculate_actual_slippage 1000 1010 = 100 ∧
    calculate_actual_slippage 1000 990 = -100 := by
  refine ⟨?_, by decide, by decide, by decide⟩
  unfold calculate_actual_slippage
  rw [if_neg he]
  exact wrap_i32_eq_self _ hlo hhi

/-- C8 witness for calculate_actual_slippage_spec at (1000, 1010). -/
theorem calculate_actual_slippage_spec_witness :
    calculate_actual_slippage 1000 1010 =
      Int.tdiv (((1010 : Int) - 1000) * 10000) 1000 :=
  (calculate_actual_slippage_spec 1000 1010 (by decide) (by decide) (by decide)).1

/-- C3 counterexample: verify_swap_output can reject an execution that is
better than quoted and meets the minimum: at actual_out = 268435456,
minimum_out = 1, max_slippage_bps = 50, expected_out = 1 the huge positive
slippage wraps (via the `as i32` cast) to −10000 and the call fails with
SlippageExceeded. -/
theorem verify_swap_output_rejects_better :
    verify_swap_output 268435456 1 50 1 = .error .SlippageExceeded ∧
    (1 : Nat) ≤ 268435456 ∧ (1 : Nat) ≤ 268435456 := by
  refine ⟨by decide, by decide, by decide⟩

/-- C3 (amended): verify_swap_output first fails with InsufficientOutput
whenever actual_out < minimum_out, unconditionally; otherwise it fails with
SlippageExceeded exactly when the i32-truncated signed slippage is below
−max_slippage_bps, and succeeds otherwise; an actual_out ≥ expected_out that
meets the minimum is never rejected PROVIDED the exact signed slippage
(actual − expected) × 10000 / expected fits in an `i32`. -/
theorem verify_swap_output_spec (actual_out minimum_out max_slippage_bps expected_out : Nat) :
    (actual_out < minimum_out →
      verify_swap_output actual_out minimum_out max_slippage_bps expected_out =
        .error .InsufficientOutput) ∧
    (minimum_out ≤ actual_out →
      calculate_actual_slippage expected_out actual_out < -(max_slippage_bps : Int) →
      verify_swap_output actual_out minimum_out max_slippage_bps expected_out =
        .error .SlippageExceeded) ∧
    (minimum_out ≤ actual_out →
      ¬ calculate_actual_slippage expected_out actual_out < -(max_slippage_bps : Int) →
      verify_swap_output actual_out minimum_out max_slippage_bps expected_out = .ok ()) ∧
    (minimum_out ≤ actual_out → expected_out ≤ actual_out →
      Int.tdiv (((actual_out : Int) - expected_out) * 10000) expected_out < 2 ^ 31 →
      verify_swap_output actual_out minimum_out max_slippage_bps expected_out = .ok ()) := by
  refine ⟨?_, ?_, ?_, ?_⟩
  · intro h
    unfold verify_swap_output
    rw [if_neg (by omega)]
  · intro h hs
    unfold verify_swap_output
    rw [if_pos h, if_pos hs]
  · intro h hs
    unfold verify_swap_output
    rw [if_pos h, if_neg hs]
  · intro h hae hfit
    unfold verify_swap_output
    rw [if_pos h]
    have hnn : 0 ≤ calculate_actual_slippage expected_out actual_out := by
      unfold calculate_actual_slippage
      by_cases h0 : expected_out = 0
      · rw [if_pos h0]
      · rw [if_neg h0]
        have hq : 0 ≤ Int.tdiv (((actual_out : Int) - expected_out) * 10000) expected_out :=
          Int.tdiv_nonneg (by
            have : (expected_out : Int) ≤ (actual_out : Int) := by exact_mod_cast hae
            omega) (by positivity)
        rw [wrap_i32_eq_self _ (by omega) hfit]
        exact hq
    rw [if_neg (by omega)]

/-- C3 witness for verify_swap_output_spec, exercising the unconditional floor
check and the never-reject-better branch at concrete inputs. -/
theorem verify_swap_output_spec_witness :
    verify_swap_output 500 600 0 1000 = .error .InsufficientOutput ∧
    verify_swap_output 1010 1000 50 1000 = .ok () :=
  ⟨(verify_swap_output_spec 500 600 0 1000).1 (by decide),
    (verify_swap_output_spec 1010 1000 50 1000).2.2.2 (by decide) (by decide) (by decide)⟩

/-- C7: is_expired is true exactly when now is strictly beyond
quote_timestamp + quote_expiration_seconds, the boundary instant is NOT
expired, and execute_swap rejects an expired route with QuoteExpired (the
expiration check sits after route validation and before any external effect).

This layer's build enables overflow checks, so the `i64` sum aborts rather
than wraps on overflow; the statement therefore reads the timestamps as
unbounded integers. -/
theorem is_expired_spec (r : JupiterRoute) (now : Int)
    (config : ProtocolConfig) (user input_mint output_mint : Pubkey)
    (user_input_amount user_output_amount : Nat) (user_stats : UserStats)
    (amount_in minimum_amount_out slippage_bps : Nat) (protected_mode : Bool)
    (eff : SwapEffect)
    (hsl : config.validate_slippage slippage_bps
      (protected_mode || config.protected_mode_enabled) = true)
    (hbal : amount_in ≤ user_input_amount)
    (hin : 0 < amount_in) (hmin : 0 < minimum_amount_out)
    (hval : r.validate input_mint output_mint amount_in minimum_amount_out slippage_bps =
      .ok ()) :
    (r.is_expired now = true ↔ r.quote_timestamp + r.quote_expiration_seconds < now) ∧
    r.is_expired (r.quote_timestamp + r.quote_expiration_seconds) = false ∧
    (r.is_expired now = true →
      execute_swap_handler config now user input_mint output_mint user_input_amount
        user_output_amount user_stats amount_in minimum_amount_out slippage_bps
        protected_mode (some r) eff = .error (.flow .QuoteExpired)) := by
  refine ⟨?_, ?_, ?_⟩
  · simp [JupiterRoute.is_expired]
  · simp [JupiterRoute.is_expired]
  · intro hexp
    simp only [execute_swap_handler]
    simp [hsl, hbal, hin, hmin, hval, hexp]

/-- C7 witness: a concrete route whose quote window [0, 100] is exceeded at
now = 101 is rejected by execute_swap with QuoteExpired. -/
theorem is_expired_spec_witness :
    execute_swap_handler ⟨9, 50, 30, 100, false, 0, 8, 0, 0⟩ 101 1 4 5 1000 20
      ⟨0, 0, 0, 0, 0, 0, 0⟩ 300 150 40 false (some ⟨4, 5, 300, 160, 40, [], 0, 100⟩)
      ⟨true, 180⟩ = .error (.flow .QuoteExpired) :=
  (is_expired_spec ⟨4, 5, 300, 160, 40, [], 0, 100⟩ 101 ⟨9, 50, 30, 100, false, 0, 8, 0, 0⟩
      1 4 5 1000 20 ⟨0, 0, 0, 0, 0, 0, 0⟩ 300 150 40 false ⟨true, 180⟩
      (by decide) (by decide) (by decide) (by decide) (by decide)).2.2 (by decide)

/-- C2 evidence: starting from a configuration satisfying the invariant
protected_slippage_bps ≤ default_slippage_bps (and reachable from initialize),
a successful update_config supplying ONLY a new, lower default_slippage_bps
leaves the stored configuration with protected_slippage_bps >
default_slippage_bps: the handler never re-checks the stored protected value
against a newly lowered default. -/
theorem update_config_only_default_breaks_invariant :
    (⟨1, 100, 100, 40, false, 0, 2, 0, 0⟩ : ProtocolConfig).protected_slippage_bps ≤
      (⟨1, 100, 100, 40, false, 0, 2, 0, 0⟩ : ProtocolConfig).default_slippage_bps ∧
    initialize_handler 1 2 100 100 40 = .ok ⟨1, 100, 100, 40, false, 0, 2, 0, 0⟩ ∧
    update_config_handler 1 ⟨1, 100, 100, 40, false, 0, 2, 0, 0⟩ (some 50) none none none
      none = .ok ⟨1, 50, 100, 40, false, 0, 2, 0, 0⟩ ∧
    ¬ (⟨1, 50, 100, 40, false, 0, 2, 0, 0⟩ : ProtocolConfig).protected_slippage_bps ≤
      (⟨1, 50, 100, 40, false, 0, 2, 0, 0⟩ : ProtocolConfig).default_slippage_bps := by
  refine ⟨by decide, by rfl, by rfl, by decide⟩

/-- C6 (amended): the computed price impact is 0 when either amount is 0 and
otherwise equals the fee sum × 10000 / in_amount REDUCED MODULO 2^16 (the
`as u16` cast truncates silently); `u64` overflow of the fee arithmetic is a
hard failure; the impact is compared against max_price_impact_bps only when
protected policy is active, and exceeding the ceiling fails with
PriceImpactTooHigh (when protected policy is inactive the handler can never
fail with PriceImpactTooHigh). -/
theorem calculate_price_impact_spec (r : JupiterRoute)
    (config : ProtocolConfig) (now : Int) (user input_mint output_mint : Pubkey)
    (user_input_amount user_output_amount : Nat) (user_stats : UserStats)
    (amount_in minimum_amount_out slippage_bps : Nat) (protected_mode : Bool)
    (eff : SwapEffect) :
    (r.in_amount = 0 ∨ r.out_amount = 0 → calculate_price_impact r = some 0) ∧
    (¬ (r.in_amount = 0 ∨ r.out_amount = 0) →
      (r.route_steps.map RouteStep.fee_amount).sum * 10000 < U64_MOD →
      calculate_price_impact r =
        some ((((r.route_steps.map RouteStep.fee_amount).sum * 10000) / r.in_amount)
          % 2 ^ 16)) ∧
    (¬ (r.in_amount = 0 ∨ r.out_amount = 0) →
      ¬ (r.route_steps.map RouteStep.fee_amount).sum * 10000 < U64_MOD →
      calculate_price_impact r = none) ∧
    (∀ v, config.validate_slippage slippage_bps
        (protected_mode || config.protected_mode_enabled) = true →
      amount_in ≤ user_input_amount → 0 < amount_in → 0 < minimum_amount_out →
      r.validate input_mint output_mint amount_in minimum_amount_out slippage_bps =
        .ok () →
      r.is_expired now = false →
      (protected_mode || config.protected_mode_enabled) = true →
      calculate_price_impact r = some v → ¬ v ≤ config.max_price_impact_bps →
      execute_swap_handler config now user input_mint output_mint user_input_amount
        user_output_amount user_stats amount_in minimum_amount_out slippage_bps
        protected_mode (some r) eff = .error (.flow .PriceImpactTooHigh)) ∧
    (protected_mode = false → config.protected_mode_enabled = false →
      ¬ execute_swap_handler config now user input_mint output_mint user_input_amount
        user_output_amount user_stats amount_in minimum_amount_out slippage_bps
        protected_mode (some r) eff = .error (.flow .PriceImpactTooHigh)) := by
  refine ⟨?_, ?_, ?_, ?_, ?_⟩
  · intro h
    unfold calculate_price_impact
    rw [if_pos h]
  · intro h1 h2
    have hpos : 0 < r.in_amount := by omega
    simp [calculate_price_impact, h1, h2, hpos]
  · intro h1 h2
    simp [calculate_price_impact, h1, h2]
  · intro v hsl hbal hin hmin hval hexp hpm himp hv
    simp only [hpm] at hsl
    simp only [execute_swap_handler]
    simp [hsl, hbal, hin, hmin, hval, hexp, hpm, himp, hv]
  · intro hpm hen h
    subst hpm
    simp only [execute_swap_handler, hen, Bool.or_false] at h
    split_ifs at h <;> try simp_all
    all_goals (repeat split at h)
    all_goals (rcases hj : execute_jupiter_swap r eff.cpi_ok with ej | aj <;> simp_all)
    all_goals (rcases hcs : checked_sub eff.user_output_after user_output_amount with _ | aout
      <;> simp_all)
    all_goals (rcases hv : (verify_swap_output aout minimum_amount_out slippage_bps
      r.out_amount) with ev | uv <;> simp_all)

/-- C6 witness: a protected-mode swap whose route carries 200 bps of fees
against a 100 bps ceiling is rejected with PriceImpactTooHigh. -/
theorem calculate_price_impact_spec_witness :
    execute_swap_handler ⟨9, 50, 30, 100, true, 0, 8, 0, 0⟩ 10 1 4 5 20000 20
      ⟨0, 0, 0, 0, 0, 0, 0⟩ 10000 9000 20 false
      (some ⟨4, 5, 10000, 9000, 20, [⟨0, 4, 5, 10000, 9000, 200, 4⟩], 0, 100⟩)
      ⟨true, 9050⟩ = .error (.flow .PriceImpactTooHigh) :=
  (calculate_price_impact_spec ⟨4, 5, 10000, 9000, 20, [⟨0, 4, 5, 10000, 9000, 200, 4⟩], 0, 100⟩
      ⟨9, 50, 30, 100, true, 0, 8, 0, 0⟩ 10 1 4 5 20000 20 ⟨0, 0, 0, 0, 0, 0, 0⟩
      10000 9000 20 false ⟨true, 9050⟩).2.2.2.1 200
    (by decide) (by decide) (by decide) (by decide) (by decide) (by decide) (by decide)
    (by decide) (by decide)

/-- C6 counterexample: the computed price impact does NOT equal the fee sum
over in_amount in basis points: a route with in_amount = 1 and a single step
with fee_amount = 7 has exact impact 70000 bps, but the `as u16` cast silently
truncates it to 4464. -/
theorem calculate_price_impact_truncates :
    calculate_price_impact ⟨1, 2, 1, 1, 0, [⟨0, 1, 2, 1, 1, 7, 1⟩], 0, 0⟩ = some 4464 ∧
    (([(⟨0, 1, 2, 1, 1, 7, 1⟩ : RouteStep)].map RouteStep.fee_amount).sum * 10000) / 1 =
      70000 ∧
    ¬ calculate_price_impact ⟨1, 2, 1, 1, 0, [⟨0, 1, 2, 1, 1, 7, 1⟩], 0, 0⟩ =
      some ((([(⟨0, 1, 2, 1, 1, 7, 1⟩ : RouteStep)].map RouteStep.fee_amount).sum * 10000)
        / 1) := by
  refine ⟨by decide, by decide, by decide⟩

/-- Characterization of Rust checked_sub success. -/
theorem checked_sub_eq_some_iff {a b v : Nat} :
    checked_sub a b = some v ↔ b ≤ a ∧ v = a - b := by
  unfold checked_sub
  split_ifs with hc <;> simp <;> omega

/-- Characterization of a successful SPL-token transfer. -/
theorem spl_transfer_eq_some_iff {src dst amt s2 d2 : Nat} :
    spl_transfer src dst amt = some (s2, d2) ↔
      amt ≤ src ∧ dst + amt < U64_MOD ∧ s2 = src - amt ∧ d2 = dst + amt := by
  unfold spl_transfer
  split_ifs with hc
  · simp only [Option.some.injEq, Prod.mk.injEq]
    constructor
    · rintro ⟨h1, h2⟩
      exact ⟨hc.1, hc.2, h1.symm, h2.symm⟩
    · rintro ⟨-, -, h1, h2⟩
      exact ⟨h1.symm, h2.symm⟩
  · constructor
    · intro h
      cases h
    · rintro ⟨h1, h2, -, -⟩
      exact absurd ⟨h1, h2⟩ hc

/-- Inversion of a successful conversion-case settlement: the merchant gains
exactly exact_usdc_out, the payer's USDC account gains the holding-account
delta minus exact_usdc_out, and the recorded payer input balance is the
reloaded one. -/
theorem pay_settle_ok_inv (config : ProtocolConfig) (now : Int)
    (input_mint usdc_mint : Pubkey)
    (payer_input_amount payer_usdc_amount merchant_usdc_amount temp_usdc_amount : Nat)
    (amount_in exact_usdc_out : Nat) (route? : Option JupiterRoute) (eff : PayEffect)
    (ai pin pusdc musdc tusdc : Nat)
    (hmint : ¬ input_mint = usdc_mint)
    (h : pay_settle config now input_mint usdc_mint payer_input_amount payer_usdc_amount
      merchant_usdc_amount temp_usdc_amount amount_in exact_usdc_out route? eff =
      .ok (ai, pin, pusdc, musdc, tusdc)) :
    musdc = merchant_usdc_amount + exact_usdc_out ∧
    pusdc = payer_usdc_amount +
      ((eff.temp_usdc_after - temp_usdc_amount) - exact_usdc_out) ∧
    pin = eff.payer_input_after := by
  simp only [pay_settle] at h
  rw [if_neg hmint] at h
  rcases route? with _ | route
  · simp at h
  · rcases hval : (route.validate input_mint usdc_mint amount_in exact_usdc_out
      config.default_slippage_bps) with ev | ⟨⟩ <;> simp_all
    all_goals (cases hexp : route.is_expired now <;> simp_all)
    all_goals (cases hcpi : eff.cpi_ok <;> simp_all [execute_jupiter_swap])
    all_goals (rcases hcs : (checked_sub eff.temp_usdc_after temp_usdc_amount)
      with _ | actual <;> simp_all [checked_sub_eq_some_iff])
    all_goals (split_ifs at h <;> try simp_all)
    all_goals (rcases hst : (spl_transfer eff.temp_usdc_after merchant_usdc_amount
      exact_usdc_out) with _ | ⟨temp1, merchant1⟩ <;> simp_all [spl_transfer_eq_some_iff])
    all_goals (rcases hst2 : (spl_transfer (eff.temp_usdc_after - exact_usdc_out)
      payer_usdc_amount (eff.temp_usdc_after - temp_usdc_amount - exact_usdc_out))
      with _ | ⟨temp2, payer_usdc1⟩ <;> simp_all [spl_transfer_eq_some_iff])

/-- C1: in a conversion payment whose realized receipt into the temporary USDC
holding account is exact_usdc_out + surplus with surplus > 0, the merchant's
USDC account gains exactly exact_usdc_out, the payer's USDC account gains
exactly the surplus, and the holding account returns to its pre-call
balance. -/
theorem pay_conversion_surplus_split (config : ProtocolConfig) (now : Int)
    (payer merchant input_mint usdc_mint : Pubkey)
    (payer_input_amount payer_usdc_amount merchant_usdc_amount temp_usdc_amount : Nat)
    (payer_stats : UserStats) (amount_in exact_usdc_out surplus : Nat)
    (memo : Option (List Nat)) (route : JupiterRoute) (eff : PayEffect)
    (hmint : ¬ input_mint = usdc_mint)
    (hin : 0 < amount_in) (hout : 0 < exact_usdc_out)
    (hbal : amount_in ≤ payer_input_amount)
    (hval : route.validate input_mint usdc_mint amount_in exact_usdc_out
      config.default_slippage_bps = .ok ())
    (hexp : route.is_expired now = false)
    (hcpi : eff.cpi_ok = true)
    (hrec : eff.temp_usdc_after = temp_usdc_amount + (exact_usdc_out + surplus))
    (hs : 0 < surplus)
    (hm : merchant_usdc_amount + exact_usdc_out < U64_MOD)
    (hp : payer_usdc_amount + surplus < U64_MOD) :
    ∃ res, pay_any_token_handler config now payer merchant input_mint usdc_mint
      payer_input_amount payer_usdc_amount merchant_usdc_amount temp_usdc_amount
      payer_stats amount_in exact_usdc_out memo (some route) eff = .ok res ∧
      res.merchant_usdc_amount = merchant_usdc_amount + exact_usdc_out ∧
      res.payer_usdc_amount = payer_usdc_amount + surplus ∧
      res.temp_usdc_amount = temp_usdc_amount := by
  have hc1 : checked_sub (temp_usdc_amount + (exact_usdc_out + surplus)) temp_usdc_amount =
      some (exact_usdc_out + surplus) := by
    unfold checked_sub
    rw [if_pos (by omega)]
    congr 1
    omega
  have ht1 : spl_transfer (temp_usdc_amount + (exact_usdc_out + surplus))
      merchant_usdc_amount exact_usdc_out =
      some (temp_usdc_amount + surplus, merchant_usdc_amount + exact_usdc_out) := by
    unfold spl_transfer
    rw [if_pos ⟨by omega, hm⟩]
    simp only [Option.some.injEq, Prod.mk.injEq]
    exact ⟨by omega, trivial⟩
  have ht2 : spl_transfer (temp_usdc_amount + surplus) payer_usdc_amount surplus =
      some (temp_usdc_amount, payer_usdc_amount + surplus) := by
    unfold spl_transfer
    rw [if_pos ⟨by omega, hp⟩]
    simp only [Option.some.injEq, Prod.mk.injEq]
    exact ⟨by omega, trivial⟩
  have hset : pay_settle config now input_mint usdc_mint payer_input_amount
      payer_usdc_amount merchant_usdc_amount temp_usdc_amount amount_in exact_usdc_out
      (some route) eff =
      .ok ((match checked_sub amount_in eff.payer_input_after with
            | some v => v
            | none => amount_in),
           eff.payer_input_after, payer_usdc_amount + surplus,
           merchant_usdc_amount + exact_usdc_out, temp_usdc_amount) := by
    simp only [pay_settle]
    rw [if_neg hmint]
    simp only [hval, hexp, execute_jupiter_swap, hcpi, if_true, hrec, hc1, ht1, ht2]
    simp [Nat.add_sub_cancel_left, hs, Nat.le_add_right]
    rw [ht2]
  simp only [pay_any_token_handler]
  rw [if_pos hin, if_pos hout, if_pos hbal, hset]
  exact ⟨_, rfl, rfl, rfl, rfl⟩

/-- C5: in a direct-currency payment (input mint equals the USDC mint) the
result is the same for every route payload and every aggregator effect (no
external call is attempted), exactly exact_usdc_out moves from the payer's
input account to the merchant's USDC account, and the stored
PaymentRecord.amount_in equals exact_usdc_out. -/
theorem pay_direct_usdc (config : ProtocolConfig) (now : Int)
    (payer merchant input_mint usdc_mint : Pubkey)
    (payer_input_amount payer_usdc_amount merchant_usdc_amount temp_usdc_amount : Nat)
    (payer_stats : UserStats) (amount_in exact_usdc_out : Nat) (memo : Option (List Nat))
    (hmint : input_mint = usdc_mint)
    (hin : 0 < amount_in) (hout : 0 < exact_usdc_out)
    (hbal : amount_in ≤ payer_input_amount)
    (hpay : exact_usdc_out ≤ payer_input_amount)
    (hm : merchant_usdc_amount + exact_usdc_out < U64_MOD) :
    ∃ res,
      (∀ (route? : Option JupiterRoute) (eff : PayEffect),
        pay_any_token_handler config now payer merchant input_mint usdc_mint
          payer_input_amount payer_usdc_amount merchant_usdc_amount temp_usdc_amount
          payer_stats amount_in exact_usdc_out memo route? eff = .ok res) ∧
      res.payer_input_amount = payer_input_amount - exact_usdc_out ∧
      res.merchant_usdc_amount = merchant_usdc_amount + exact_usdc_out ∧
      res.payer_usdc_amount = payer_usdc_amount ∧
      res.temp_usdc_amount = temp_usdc_amount ∧
      res.record.amount_in = exact_usdc_out ∧
      res.record.usdc_amount = exact_usdc_out := by
  have ht : spl_transfer payer_input_amount merchant_usdc_amount exact_usdc_out =
      some (payer_input_amount - exact_usdc_out, merchant_usdc_amount + exact_usdc_out) := by
    unfold spl_transfer
    rw [if_pos ⟨hpay, hm⟩]
  have hset : ∀ (route? : Option JupiterRoute) (eff : PayEffect),
      pay_settle config now input_mint usdc_mint payer_input_amount payer_usdc_amount
        merchant_usdc_amount temp_usdc_amount amount_in exact_usdc_out route? eff =
      .ok (exact_usdc_out, payer_input_amount - exact_usdc_out, payer_usdc_amount,
           merchant_usdc_amount + exact_usdc_out, temp_usdc_amount) := by
    intro route? eff
    simp only [pay_settle]
    rw [if_pos hmint, ht]
  refine Exists.intro
    { record :=
        { payer := payer
          merchant := merchant
          input_mint := input_mint
          amount_in := exact_usdc_out
          usdc_amount := exact_usdc_out
          memo := (match memo with | some m => m.take MAX_MEMO_LENGTH | none => [])
          memo_len := (match memo with
            | some m => min m.length MAX_MEMO_LENGTH
            | none => 0)
          timestamp := now }
      payer_stats :=
        { (if payer_stats.user = 0 then { payer_stats with user := payer }
            else payer_stats) with
          total_payments := sat_add64 (if payer_stats.user = 0 then
            { payer_stats with user := payer } else payer_stats).total_payments 1
          last_activity := now }
      payer_input_amount := payer_input_amount - exact_usdc_out
      payer_usdc_amount := payer_usdc_amount
      merchant_usdc_amount := merchant_usdc_amount + exact_usdc_out
      temp_usdc_amount := temp_usdc_amount }
    ⟨fun route? eff => ?_, rfl, rfl, rfl, rfl, rfl, rfl⟩
  simp only [pay_any_token_handler]
  rw [if_pos hin, if_pos hout, if_pos hbal, hset route? eff]

/-- Inversion of a successful execute_swap: the stored stats counter is the
saturating increment and the receipt output is the output-balance delta. -/
theorem execute_swap_ok_inv (config : ProtocolConfig) (now : Int)
    (user input_mint output_mint : Pubkey) (user_input_amount user_output_amount : Nat)
    (user_stats : UserStats) (amount_in minimum_amount_out slippage_bps : Nat)
    (protected_mode : Bool) (route? : Option JupiterRoute) (eff : SwapEffect)
    (res : SwapResult)
    (h : execute_swap_handler config now user input_mint output_mint user_input_amount
      user_output_amount user_stats amount_in minimum_amount_out slippage_bps
      protected_mode route? eff = .ok res) :
    res.user_stats.total_swaps = sat_add64 user_stats.total_swaps 1 ∧
    res.receipt.amount_out = eff.user_output_after - user_output_amount ∧
    res.user_output = eff.user_output_after := by
  simp only [execute_swap_handler] at h
  rcases route? with _ | route
  · split_ifs at h
  · split_ifs at h
    all_goals (rcases hval : (route.validate input_mint output_mint amount_in
      minimum_amount_out slippage_bps) with ev | ⟨⟩ <;> simp_all)
    all_goals (try (rcases himp : calculate_price_impact route with _ | v <;> simp_all))
    all_goals (try (split_ifs at h <;> try simp_all))
    all_goals (cases hcpi : eff.cpi_ok <;> simp_all [execute_jupiter_swap])
    all_goals (rcases hcs : (checked_sub eff.user_output_after user_output_amount)
      with _ | aout <;> simp_all [checked_sub_eq_some_iff])
    all_goals (rcases hv : (verify_swap_output aout minimum_amount_out slippage_bps
      route.out_amount) with ev | ⟨⟩ <;> simp_all)
    all_goals (rw [← h]; exact ⟨rfl, rfl, rfl⟩)

/-- C9: every successful execute_swap updates the user's total_swaps counter to
its saturating increment: below the u64 maximum it increases by exactly 1, it
never decreases, and at the maximum it stays there (saturates, never wraps). -/
theorem execute_swap_total_swaps_spec (config : ProtocolConfig) (now : Int)
    (user input_mint output_mint : Pubkey) (user_input_amount user_output_amount : Nat)
    (user_stats : UserStats) (amount_in minimum_amount_out slippage_bps : Nat)
    (protected_mode : Bool) (route? : Option JupiterRoute) (eff : SwapEffect)
    (res : SwapResult)
    (hts : user_stats.total_swaps < U64_MOD)
    (h : execute_swap_handler config now user input_mint output_mint user_input_amount
      user_output_amount user_stats amount_in minimum_amount_out slippage_bps
      protected_mode route? eff = .ok res) :
    (user_stats.total_swaps < U64_MAX →
      res.user_stats.total_swaps = user_stats.total_swaps + 1) ∧
    user_stats.total_swaps ≤ res.user_stats.total_swaps ∧
    (user_stats.total_swaps = U64_MAX → res.user_stats.total_swaps = U64_MAX) := by
  obtain ⟨h1, -, -⟩ := execute_swap_ok_inv config now user input_mint output_mint
    user_input_amount user_output_amount user_stats amount_in minimum_amount_out
    slippage_bps protected_mode route? eff res h
  rw [h1]
  unfold sat_add64 U64_MAX
  unfold U64_MOD at hts
  refine ⟨fun hlt => ?_, ?_, fun heq => ?_⟩ <;> omega

/-- C9 witness: a concrete successful swap takes a zeroed stats account's
total_swaps from 0 to 1. -/
theorem execute_swap_total_swaps_witness :
    (⟨⟨1, 4, 5, 300, 160, 40, false, 10⟩, ⟨1, 1, 0, 0, 0, 0, 10⟩,
      ⟨9, 50, 30, 100, false, 0, 8, 1, 0⟩, 180⟩ : SwapResult).user_stats.total_swaps =
      0 + 1 :=
  (execute_swap_total_swaps_spec ⟨9, 50, 30, 100, false, 0, 8, 0, 0⟩ 10 1 4 5 1000 20
      ⟨0, 0, 0, 0, 0, 0, 0⟩ 300 150 40 false (some ⟨4, 5, 300, 160, 40, [], 0, 100⟩)
      ⟨true, 180⟩ ⟨⟨1, 4, 5, 300, 160, 40, false, 10⟩, ⟨1, 1, 0, 0, 0, 0, 10⟩,
      ⟨9, 50, 30, 100, false, 0, 8, 1, 0⟩, 180⟩ (by decide) (by rfl)).1 (by decide)

/-- Inversion of a successful conversion-case pay_any_token at the handler
level: the merchant gains exactly exact_usdc_out and the payer's USDC account
gains the holding-account balance delta minus exact_usdc_out. -/
theorem pay_conversion_handler_inv (config : ProtocolConfig) (now : Int)
    (payer merchant input_mint usdc_mint : Pubkey)
    (payer_input_amount payer_usdc_amount merchant_usdc_amount temp_usdc_amount : Nat)
    (payer_stats : UserStats) (amount_in exact_usdc_out : Nat) (memo : Option (List Nat))
    (route? : Option JupiterRoute) (eff : PayEffect) (res : PayResult)
    (hmint : ¬ input_mint = usdc_mint)
    (h : pay_any_token_handler config now payer merchant input_mint usdc_mint
      payer_input_amount payer_usdc_amount merchant_usdc_amount temp_usdc_amount
      payer_stats amount_in exact_usdc_out memo route? eff = .ok res) :
    res.merchant_usdc_amount = merchant_usdc_amount + exact_usdc_out ∧
    res.payer_usdc_amount = payer_usdc_amount +
      ((eff.temp_usdc_after - temp_usdc_amount) - exact_usdc_out) := by
  simp only [pay_any_token_handler] at h
  split_ifs at h <;> try simp_all
  all_goals split at h
  all_goals (try (exact Except.noConfusion h))
  all_goals
    (rename_i ai pin pusdc musdc tusdc heq
     obtain ⟨hm1, hp1, -⟩ := pay_settle_ok_inv config now input_mint usdc_mint
       payer_input_amount payer_usdc_amount merchant_usdc_amount temp_usdc_amount
       amount_in exact_usdc_out route? eff ai pin pusdc musdc tusdc hmint heq
     injection h with h
     rw [← h]
     exact ⟨hm1, hp1⟩)

/-- C10: a successful execute_jupiter_swap returns exactly the route's QUOTED
out_amount (the realized output is not even an input to it), and both calling
instructions ignore that return value and compute the realized amount from the
re-read destination balance: the swap receipt records the output-account
delta, and the conversion payment settles from the holding-account delta. -/
theorem execute_jupiter_swap_returns_quote (route : JupiterRoute)
    (config : ProtocolConfig) (now : Int) (user input_mint output_mint : Pubkey)
    (user_input_amount user_output_amount : Nat) (user_stats : UserStats)
    (amount_in minimum_amount_out slippage_bps : Nat) (protected_mode : Bool)
    (route? : Option JupiterRoute) (eff : SwapEffect) (res : SwapResult)
    (pconfig : ProtocolConfig) (pnow : Int) (payer merchant pinput_mint usdc_mint : Pubkey)
    (payer_input_amount payer_usdc_amount merchant_usdc_amount temp_usdc_amount : Nat)
    (payer_stats : UserStats) (pamount_in exact_usdc_out : Nat) (memo : Option (List Nat))
    (proute? : Option JupiterRoute) (peff : PayEffect) (pres : PayResult)
    (hswap : execute_swap_handler config now user input_mint output_mint
      user_input_amount user_output_amount user_stats amount_in minimum_amount_out
      slippage_bps protected_mode route? eff = .ok res)
    (hmint : ¬ pinput_mint = usdc_mint)
    (hpay : pay_any_token_handler pconfig pnow payer merchant pinput_mint usdc_mint
      payer_input_amount payer_usdc_amount merchant_usdc_amount temp_usdc_amount
      payer_stats pamount_in exact_usdc_out memo proute? peff = .ok pres) :
    execute_jupiter_swap route true = .ok route.out_amount ∧
    res.receipt.amount_out = eff.user_output_after - user_output_amount ∧
    pres.merchant_usdc_amount = merchant_usdc_amount + exact_usdc_out ∧
    pres.payer_usdc_amount = payer_usdc_amount +
      ((peff.temp_usdc_after - temp_usdc_amount) - exact_usdc_out) := by
  obtain ⟨-, h2, -⟩ := execute_swap_ok_inv config now user input_mint output_mint
    user_input_amount user_output_amount user_stats amount_in minimum_amount_out
    slippage_bps protected_mode route? eff res hswap
  obtain ⟨h3, h4⟩ := pay_conversion_handler_inv pconfig pnow payer merchant pinput_mint
    usdc_mint payer_input_amount payer_usdc_amount merchant_usdc_amount temp_usdc_amount
    payer_stats pamount_in exact_usdc_out memo proute? peff pres hmint hpay
  exact ⟨rfl, h2, h3, h4⟩

/-- C10 witness: concrete successful runs of both instructions. -/
theorem execute_jupiter_swap_returns_quote_witness :
    execute_jupiter_swap ⟨4, 5, 300, 160, 40, [], 0, 100⟩ true =
      .ok (⟨4, 5, 300, 160, 40, [], 0, 100⟩ : JupiterRoute).out_amount ∧
    (⟨⟨1, 4, 5, 300, 160, 40, false, 10⟩, ⟨1, 1, 0, 0, 0, 0, 10⟩,
      ⟨9, 50, 30, 100, false, 0, 8, 1, 0⟩, 180⟩ : SwapResult).receipt.amount_out =
      180 - 20 :=
  have hmain := execute_jupiter_swap_returns_quote ⟨4, 5, 300, 160, 40, [], 0, 100⟩
    ⟨9, 50, 30, 100, false, 0, 8, 0, 0⟩ 10 1 4 5 1000 20 ⟨0, 0, 0, 0, 0, 0, 0⟩ 300 150 40
    false (some ⟨4, 5, 300, 160, 40, [], 0, 100⟩) ⟨true, 180⟩
    ⟨⟨1, 4, 5, 300, 160, 40, false, 10⟩, ⟨1, 1, 0, 0, 0, 0, 10⟩,
      ⟨9, 50, 30, 100, false, 0, 8, 1, 0⟩, 180⟩
    ⟨9, 50, 30, 100, false, 0, 8, 0, 0⟩ 10 1 2 4 5 320 50 20 7 ⟨0, 0, 0, 0, 0, 0, 0⟩
    300 200 none (some ⟨4, 5, 300, 200, 0, [], 0, 100⟩) ⟨true, 237, 70⟩
    ⟨⟨1, 2, 4, 230, 200, [], 0, 10⟩, ⟨1, 0, 0, 1, 0, 0, 10⟩, 70, 80, 220, 7⟩
    (by rfl) (by decide) (by rfl)
  ⟨hmain.1, hmain.2.1⟩

/-- C1 witness: a concrete conversion payment receiving 230 USDC against an
exact-out of 200 pays the merchant 200, refunds the 30 surplus to the payer,
and leaves the holding account at its pre-call balance 7. -/
theorem pay_conversion_surplus_split_witness :
    ∃ res, pay_any_token_handler ⟨9, 50, 30, 100, false, 0, 8, 0, 0⟩ 10 1 2 4 5 320 50 20 7
      ⟨0, 0, 0, 0, 0, 0, 0⟩ 300 200 none (some ⟨4, 5, 300, 200, 0, [], 0, 100⟩)
      ⟨true, 237, 70⟩ = .ok res ∧
      res.merchant_usdc_amount = 20 + 200 ∧
      res.payer_usdc_amount = 50 + 30 ∧
      res.temp_usdc_amount = 7 :=
  pay_conversion_surplus_split ⟨9, 50, 30, 100, false, 0, 8, 0, 0⟩ 10 1 2 4 5 320 50 20 7
    ⟨0, 0, 0, 0, 0, 0, 0⟩ 300 200 30 none ⟨4, 5, 300, 200, 0, [], 0, 100⟩ ⟨true, 237, 70⟩
    (by decide) (by decide) (by decide) (by decide) (by decide) (by decide) (by decide)
    (by decide) (by decide) (by decide) (by decide)

/-- C5 witness: a concrete direct-USDC payment of exact-out 200 moves exactly
200 from the payer's input account to the merchant and records amount_in =
200, for every route payload and aggregator effect. -/
theorem pay_direct_usdc_witness :
    ∃ res,
      (∀ (route? : Option JupiterRoute) (eff : PayEffect),
        pay_any_token_handler ⟨9, 50, 30, 100, false, 0, 8, 0, 0⟩ 10 1 2 5 5 1000 50 20 7
          ⟨0, 0, 0, 0, 0, 0, 0⟩ 300 200 none route? eff = .ok res) ∧
      res.payer_input_amount = 1000 - 200 ∧
      res.merchant_usdc_amount = 20 + 200 ∧
      res.payer_usdc_amount = 50 ∧
      res.temp_usdc_amount = 7 ∧
      res.record.amount_in = 200 ∧
      res.record.usdc_amount = 200 :=
  pay_direct_usdc ⟨9, 50, 30, 100, false, 0, 8, 0, 0⟩ 10 1 2 5 5 1000 50 20 7
    ⟨0, 0, 0, 0, 0, 0, 0⟩ 300 200 none rfl (by decide) (by decide) (by decide) (by decide)
    (by decide)
